import Mathlib

/-!
Verification development for the FarmeRice backend.

The embedding covers the two reviewed source files:
* the server bootstrap / process-lifecycle file (environment load, `startServer`,
  the `unhandledRejection` / `uncaughtException` handlers, `shutdownGracefully`,
  and the SIGTERM/SIGINT wiring), and
* `src/app.js` (the Express middleware chain: rate limiter, static `/uploads`
  and `/public` serving with the image fallback route, the favicon route, the
  fifteen `/api/...` sub-router mounts, the production static/catch-all block,
  `/health`, the synthesized 404 and the centralized error handler).

HTTP paths are modelled as lists of non-empty path segments (so `/uploads/a/b.jpg`
is `["uploads", "a", "b.jpg"]` and `/` is `[]`), which is the granularity at which
Express route patterns such as `/uploads/:type/:filename` match.  Query strings,
trailing slashes (and hence the slash-terminated directory URLs that
serve-static answers through its `index` option), headers other than
Content-Type, and response streaming are below the model's granularity.  The
filesystem is a list of server-relative file paths.
-/

/-! ### Process lifecycle (server bootstrap file) -/

/-- The fixed forced-shutdown timeout: `setTimeout(..., 3000)` inside
`shutdownGracefully`. -/
def forcedShutdownTimeoutMs : Nat := 3000

/-- Outcome of a shutdown: the process exit code and the time (ms after the HTTP
server finished closing) at which the exit happens. -/
structure ShutdownOutcome where
  exitCode : Nat
  exitMsAfterHttpClose : Nat
deriving DecidableEq, Repr

/-- `shutdownGracefully` from the bootstrap file (lines 96-118).  If a server was
started, `server.close` is called; once the HTTP server is closed the handler
both asks mongoose to close the connection (exiting 0 from that callback) and
arms a 3000 ms timer that exits 1 ("Could not close connections in time,
forcefully shutting down").  `dbCloseDelayMs` is the time after the HTTP close at
which the MongoDB close callback would run, `none` meaning it never runs; the
first of the two events wins the race.  If no server was started the handler
exits 0 immediately.  The HTTP `server.close` callback itself is modelled as
completing (the claims under study concern the database close hanging). -/
def shutdownGracefully (serverStarted : Bool) (dbCloseDelayMs : Option Nat) :
    ShutdownOutcome :=
  if serverStarted then
    match dbCloseDelayMs with
    | some d =>
        if d < forcedShutdownTimeoutMs then
          { exitCode := 0, exitMsAfterHttpClose := d }
        else
          { exitCode := 1, exitMsAfterHttpClose := forcedShutdownTimeoutMs }
    | none => { exitCode := 1, exitMsAfterHttpClose := forcedShutdownTimeoutMs }
  else
    { exitCode := 0, exitMsAfterHttpClose := 0 }

/-- Observable actions of a process-terminating handler. -/
structure TerminationOutcome where
  logged : Bool
  httpCloseAttempted : Bool
  dbCloseAttempted : Bool
  exitCode : Nat
deriving DecidableEq, Repr

/-- The `unhandledRejection` and `uncaughtException` handlers (bootstrap file
lines 35-58).  Both log the error (message and stack), then, when a server
handle exists, call `server.close(() => process.exit(1))`; otherwise they call
`process.exit(1)` directly.  Neither handler touches the mongoose connection. -/
def fatalHandler (serverStarted : Bool) : TerminationOutcome :=
  { logged := true
    httpCloseAttempted := serverStarted
    dbCloseAttempted := false
    exitCode := 1 }

/-- The `catch` block of `startServer` (bootstrap file lines 89-92): log
"Server failed to start" and `process.exit(1)`. -/
def startupFailureExit : TerminationOutcome :=
  { logged := true
    httpCloseAttempted := false
    dbCloseAttempted := false
    exitCode := 1 }

/-! ### HTTP pipeline (src/app.js) -/

/-- An HTTP path as its list of non-empty segments: `/health` is `["health"]`,
`/` is `[]`. -/
abbrev UrlPath := List String

/-- An incoming HTTP request: method and path. -/
structure Request where
  method : String
  path : UrlPath
deriving DecidableEq, Repr

/-- The distinguishable response bodies the reviewed pipeline can produce. -/
inductive Body where
  /-- The `/health` JSON body `{status, message, timestamp}` (app.js 342-348). -/
  | healthJson (status message timestamp : String)
  /-- A JSON error body produced by the centralized error handler. -/
  | errorJson (message : String)
  /-- A file sent from the server directory (path relative to the server dir). -/
  | file (p : UrlPath)
  /-- A file sent from the client build directory (path relative to the build dir). -/
  | buildFile (p : UrlPath)
  /-- The 301 redirect serve-static issues when a path names a directory
  (redirecting to the same path with a trailing slash appended). -/
  | dirRedirect (location : UrlPath)
  /-- The inline HTML answer for `/` in production without client build (app.js 326-337). -/
  | rootInfoHtml
  /-- The request was delegated to one of the fifteen `/api/...` sub-routers,
  whose code is outside the reviewed source; nothing about this response is
  specified here. -/
  | apiDelegated
  /-- The rate limiter's rejection body. -/
  | throttleMessage (msg : String)
  /-- An empty body (`res.end()`). -/
  | empty
deriving DecidableEq, Repr

/-- An HTTP response: status code, the Content-Type header when the reviewed
code sets one explicitly, and the body. -/
structure Response where
  status : Nat
  contentType : Option String
  body : Body
deriving DecidableEq, Repr

/-- Server-side configuration and state the pipeline branches on:
`NODE_ENV === 'production'`, whether one of the candidate client build
directories exists, the files on disk relative to the server directory, the
files in the client build directory, and the timestamp `new Date().toISOString()`
would produce. -/
structure Env where
  production : Bool
  clientBuildFound : Bool
  files : List UrlPath
  buildFiles : List UrlPath
  now : String
deriving DecidableEq, Repr

/-- The rate limiter's `message` option (app.js 50). -/
def rateLimitMessage : String :=
  "Too many requests from this IP, please try again after 15 minutes"

/-- The rate limiter's `max` option (app.js 47): 100 in production, 1000
otherwise. -/
def limiterMax (env : Env) : Nat := if env.production then 100 else 1000

/-- Whether the rate limiter, mounted with `app.use('/api/', limiter)`
(app.js 52), applies to a path: exactly the paths whose first segment is
`api`. -/
def limiterApplies (p : UrlPath) : Bool := p.head? == some "api"

/-- Whether `express.static` on `/uploads` (app.js 154-159) finds a file: the
path is `/uploads/...` with at least one further segment and the corresponding
file exists in the server's `uploads` directory (URL segments and disk segments
coincide because the mount point and the directory are both named `uploads`). -/
def uploadsStaticMatch (files : List UrlPath) (p : UrlPath) : Bool :=
  p.head? == some "uploads" && decide (2 ≤ p.length) && files.contains p

/-- Whether a path names a directory of the given file set: some file on disk
lies strictly below it.  serve-static answers such a (no-trailing-slash)
request with a 301 redirect to the slash-terminated URL. -/
def dirIn (files : List UrlPath) (p : UrlPath) : Bool :=
  files.any (fun f => (p != f) && p.isPrefixOf f)

/-- Whether the `/uploads` static middleware sees a directory at the path and
issues its 301 redirect. -/
def uploadsDirRedirect (files : List UrlPath) (p : UrlPath) : Bool :=
  p.head? == some "uploads" && dirIn files p

/-- Whether the `/public` static middleware sees a directory at the path and
issues its 301 redirect. -/
def publicDirRedirect (files : List UrlPath) (p : UrlPath) : Bool :=
  p.head? == some "public" && dirIn files p

/-- The fallback SVG's path on disk, `public/fallback/rice-product.svg`
(app.js 178). -/
def fallbackSvgFile : UrlPath := ["public", "fallback", "rice-product.svg"]

/-- The characters of a string, lower-cased. -/
def lowerChars (s : String) : List Char := s.data.map Char.toLower

/-- The image-extension test used by the fallback route (app.js 167), the
case-insensitive regex over jpg, jpeg, png, gif, webp, svg: the lower-cased
name ends with one of the six dotted extensions. -/
def isImageFile (name : String) : Bool :=
  let n := lowerChars name
  ".jpg".data.isSuffixOf n || ".jpeg".data.isSuffixOf n ||
  ".png".data.isSuffixOf n || ".gif".data.isSuffixOf n ||
  ".webp".data.isSuffixOf n || ".svg".data.isSuffixOf n

/-- Whether the fallback route `app.use('/uploads/:type/:filename', ...)`
(app.js 162-187) sends the fallback SVG.  Being registered with `app.use`, the
route is prefix-matched: any path with at least two segments below `/uploads`
matches, `:type` and `:filename` binding the first and second of those
segments (further segments are an unconsumed suffix).  The route sends the
fallback SVG when the bound filename has an image extension and the fallback
SVG exists on disk; otherwise it calls `next()`. -/
def uploadsFallbackServes (env : Env) (p : UrlPath) : Bool :=
  match p with
  | "uploads" :: _ :: f :: _ => isImageFile f && env.files.contains fallbackSvgFile
  | _ => false

/-- Whether `express.static` on `/public` (app.js 190-195) finds a file. -/
def publicStaticMatch (files : List UrlPath) (p : UrlPath) : Bool :=
  p.head? == some "public" && decide (2 ≤ p.length) && files.contains p

/-- The favicon file the `/favicon.ico` route looks for (app.js 220). -/
def faviconFile : UrlPath := ["public", "favicon.ico"]

/-- The fifteen API sub-router mount points under `/api/` (app.js 229-243). -/
def apiMounts : List String :=
  ["auth", "users", "products", "orders", "inventory", "payments", "reviews",
   "sales", "messages", "tasks", "reports", "notifications", "deliveries",
   "announcements", "upload"]

/-- Whether the path hits one of the `/api/<name>` sub-router mounts: first
segment `api` and second segment one of the mount names (any suffix is matched
by a mounted router). -/
def apiRouteMatch (p : UrlPath) : Bool :=
  p.head? == some "api" &&
  (((p.drop 1).head?).map (fun m => apiMounts.contains m)).getD false

/-- The test `req.url.startsWith('/api')` of the production catch-all
(app.js 312): the URL string starts with `/api` exactly when the first segment
starts with `api`. -/
def urlStartsWithApi (p : UrlPath) : Bool :=
  ((p.head?).map (fun h => "api".data.isPrefixOf h.data)).getD false

/-- Whether `express.static(clientBuildPath)` (app.js 300-308) finds a file:
either the path names a file of the build directory, or it is the root `/` and
the configured `index: 'index.html'` exists. -/
def clientStaticMatch (buildFiles : List UrlPath) (p : UrlPath) : Bool :=
  if p.isEmpty then buildFiles.contains [("index.html" : String)]
  else buildFiles.contains p

/-- Whether `express.static(clientBuildPath)` sees a directory at a non-root
path and issues its 301 redirect (the root `/` is the trailing-slash form,
answered through the `index` option instead). -/
def clientStaticDirRedirect (buildFiles : List UrlPath) (p : UrlPath) : Bool :=
  !p.isEmpty && dirIn buildFiles p

/-- The URL string of a segment path, as `req.originalUrl` would show it. -/
def urlOf (p : UrlPath) : String := String.append "/" (String.intercalate "/" p)

/-- Modelled from the spec: the centralized error-handling middleware
(`errorHandler` from `src/middleware/error.middleware`, whose file is not part
of the reviewed source).  Per the spec it "converts thrown errors (including a
synthesized 404 for unmatched routes) into JSON error responses", so it answers
with the error's status code and a JSON error body carrying the error's
message. -/
def errorHandler (statusCode : Nat) (message : String) : Response :=
  { status := statusCode, contentType := some "application/json",
    body := .errorJson message }

/-- The Express pipeline of app.js, in mount order, for one request.
`priorCount` is the number of requests this client has already had counted by
the rate limiter inside the current 15-minute window.  Purely header-setting
middleware (helmet, xss-clean, mongo-sanitize, hpp, body parsing, compression,
logging) never ends a request and is omitted.  In order: the rate limiter on
`/api/` (app.js 45-52); the cors middleware (55-69), which with
`preflightContinue: false` and `optionsSuccessStatus: 204` terminates every
OPTIONS request with 204 and an empty body and passes every other method
through; static `/uploads` (154) serving a found file or 301-redirecting a
directory; the prefix-matched `/uploads/:type/:filename` image fallback (162);
static `/public` (190), again file or directory redirect; the `/favicon.ico`
route (219); the fifteen `/api/...` sub-routers (229-243); the production
block (269-339: client build statics with file serving and non-root directory
redirects, the `app.get('*')` catch-all sending the build's index.html for
URLs not starting with `/api`, or the plain-HTML root route when no build
directory was found); the `/health` route (342); and finally the synthesized
404 passed to the centralized error handler (350-358).  `express.static` and
routes registered with `app.get` act only on GET requests (HEAD is identified
with GET); `app.use` routes act on every method.  Directory requests are
modelled in their no-trailing-slash form (the 301 redirect); slash-terminated
directory URLs, which serve-static answers through its `index` option, are
below the segment model's path granularity. -/
def handleRequest (env : Env) (priorCount : Nat) (req : Request) : Response :=
  if limiterApplies req.path && decide (limiterMax env ≤ priorCount) then
    { status := 429, contentType := none, body := .throttleMessage rateLimitMessage }
  else if req.method == "OPTIONS" then
    { status := 204, contentType := none, body := .empty }
  else if req.method == "GET" && uploadsStaticMatch env.files req.path then
    { status := 200, contentType := none, body := .file req.path }
  else if req.method == "GET" && uploadsDirRedirect env.files req.path then
    { status := 301, contentType := none, body := .dirRedirect req.path }
  else if uploadsFallbackServes env req.path then
    { status := 200, contentType := some "image/svg+xml", body := .file fallbackSvgFile }
  else if req.method == "GET" && publicStaticMatch env.files req.path then
    { status := 200, contentType := none, body := .file req.path }
  else if req.method == "GET" && publicDirRedirect env.files req.path then
    { status := 301, contentType := none, body := .dirRedirect req.path }
  else if req.method == "GET" && req.path == ["favicon.ico"] then
    if env.files.contains faviconFile then
      { status := 200, contentType := none, body := .file faviconFile }
    else
      { status := 204, contentType := none, body := .empty }
  else if apiRouteMatch req.path then
    { status := 200, contentType := none, body := .apiDelegated }
  else if env.production && env.clientBuildFound && req.method == "GET" &&
      clientStaticMatch env.buildFiles req.path then
    { status := 200, contentType := none,
      body := .buildFile (if req.path.isEmpty then [("index.html" : String)] else req.path) }
  else if env.production && env.clientBuildFound && req.method == "GET" &&
      clientStaticDirRedirect env.buildFiles req.path then
    { status := 301, contentType := none, body := .dirRedirect req.path }
  else if env.production && env.clientBuildFound && req.method == "GET" &&
      !urlStartsWithApi req.path then
    { status := 200, contentType := some "text/html",
      body := .buildFile [("index.html" : String)] }
  else if env.production && !env.clientBuildFound && req.method == "GET" &&
      req.path.isEmpty then
    { status := 200, contentType := some "text/html", body := .rootInfoHtml }
  else if req.method == "GET" && req.path == ["health"] then
    { status := 200, contentType := some "application/json",
      body := .healthJson "success" "API is running" env.now }
  else
    errorHandler 404 (String.append "Route not found - " (urlOf req.path))

/-! ### Shared example environments -/

/-- A development-mode environment with one product image, the fallback SVG and
a favicon on disk. -/
def devEnv : Env :=
  { production := false, clientBuildFound := false,
    files := [["uploads", "products", "a.jpg"],
              ["public", "fallback", "rice-product.svg"],
              ["public", "favicon.ico"]],
    buildFiles := [], now := "2025-01-01T00:00:00.000Z" }

/-- A production environment in which a client build directory was found. -/
def prodBuildEnv : Env :=
  { production := true, clientBuildFound := true, files := [],
    buildFiles := [[("index.html" : String)], ["static", "main.css"]],
    now := "2025-01-01T00:00:00.000Z" }

/-! ### Claims about the process lifecycle -/

/-- Helper: the shutdown handler exits with code 0 exactly when no server had
started or the MongoDB close callback beats the forced-shutdown timer. -/
theorem shutdownGracefully_exitCode_zero_iff (s : Bool) (d : Option Nat) :
    (shutdownGracefully s d).exitCode = 0 ↔
      s = false ∨ ∃ t, d = some t ∧ t < forcedShutdownTimeoutMs := by
  cases s
  · simp [shutdownGracefully]
  · rcases d with _ | t
    · simp [shutdownGracefully]
    · by_cases h : t < forcedShutdownTimeoutMs <;> simp [shutdownGracefully, h]

/-- Helper: the shutdown handler always exits within the forced-shutdown
timeout. -/
theorem shutdownGracefully_exitTime_le (s : Bool) (d : Option Nat) :
    (shutdownGracefully s d).exitMsAfterHttpClose ≤ forcedShutdownTimeoutMs := by
  cases s
  · simp [shutdownGracefully]
  · rcases d with _ | t
    · simp [shutdownGracefully]
    · by_cases h : t < forcedShutdownTimeoutMs
      · simp [shutdownGracefully, h]
        omega
      · simp [shutdownGracefully, h]

/-- Claim C1, counterexample: when SIGTERM/SIGINT is received after the server
has started and the MongoDB close callback never runs, the forced-shutdown
timer fires and the process exits with code 1, not 0. -/
theorem shutdown_db_hang_exits_one :
    (shutdownGracefully true none).exitCode = 1 ∧
    (shutdownGracefully true none).exitCode ≠ 0 := by decide

/-- Claim C1 (amended): after SIGTERM/SIGINT the process always exits within
the fixed 3-second forced-shutdown timeout, but the exit code is 0 exactly when
no server had started or the MongoDB close callback runs before the timeout;
when the database close hangs, the forced shutdown exits with code 1. -/
theorem shutdown_exits_within_timeout (s : Bool) (d : Option Nat) :
    (shutdownGracefully s d).exitMsAfterHttpClose ≤ forcedShutdownTimeoutMs ∧
    ((shutdownGracefully s d).exitCode = 0 ↔
      s = false ∨ ∃ t, d = some t ∧ t < forcedShutdownTimeoutMs) :=
  ⟨shutdownGracefully_exitTime_le s d, shutdownGracefully_exitCode_zero_iff s d⟩

/-- Claim C2: the exit code is 0 exactly on a shutdown that completes
gracefully (either no server had started, or the database connection closed
before the forced-shutdown timer), and the startup-failure catch block, the
`uncaughtException` handler and the `unhandledRejection` handler each terminate
the process with exit code 1. -/
theorem exit_code_discipline :
    (∀ s : Bool, (fatalHandler s).exitCode = 1) ∧
    startupFailureExit.exitCode = 1 ∧
    (∀ (s : Bool) (d : Option Nat),
      (shutdownGracefully s d).exitCode = 0 ↔
        s = false ∨ ∃ t, d = some t ∧ t < forcedShutdownTimeoutMs) :=
  ⟨fun _ => rfl, rfl, fun s d => shutdownGracefully_exitCode_zero_iff s d⟩

/-- Claim C7, counterexample: the `uncaughtException` / `unhandledRejection`
handler logs the event and attempts to close the HTTP server, but it never
attempts to close the database connection (the claim asserts it does). -/
theorem fatal_handler_skips_db_close :
    (fatalHandler true).logged = true ∧
    (fatalHandler true).httpCloseAttempted = true ∧
    (fatalHandler true).dbCloseAttempted = false := by decide

/-- Claim C7 (amended): on an uncaught exception or unhandled promise
rejection, the event is logged and the process terminates with exit code 1
after attempting to close the HTTP server when one has started; no attempt is
made to close the database connection. -/
theorem fatal_handler_behavior (s : Bool) :
    (fatalHandler s).logged = true ∧
    (fatalHandler s).httpCloseAttempted = s ∧
    (fatalHandler s).dbCloseAttempted = false ∧
    (fatalHandler s).exitCode = 1 := ⟨rfl, rfl, rfl, rfl⟩

/-! ### Claims about the HTTP pipeline -/

/-- Claim C3, counterexample: in production with a client build directory
found, a GET request to `/health` is answered by the SPA catch-all with the
build's index.html, not by the health route's JSON. -/
theorem health_masked_in_production :
    handleRequest prodBuildEnv 0 { method := "GET", path := ["health"] } =
      { status := 200, contentType := some "text/html",
        body := Body.buildFile [("index.html" : String)] } ∧
    (∀ st ms ts,
      (handleRequest prodBuildEnv 0 { method := "GET", path := ["health"] }).body ≠
        Body.healthJson st ms ts) := by
  refine ⟨by decide, fun st ms ts h => ?_⟩
  rw [show (handleRequest prodBuildEnv 0 { method := "GET", path := ["health"] }).body =
    Body.buildFile [("index.html" : String)] from by decide] at h
  cases h

/-- Claim C3 (amended): unless NODE_ENV is production and a client build
directory was found (in which case the SPA catch-all, mounted earlier, answers
with index.html), every GET request to `/health` gets HTTP 200 with the JSON
body whose status field is `success` and which carries the message and the
timestamp. -/
theorem health_route_ok (env : Env) (k : Nat)
    (h : env.production = false ∨ env.clientBuildFound = false) :
    handleRequest env k { method := "GET", path := ["health"] } =
      { status := 200, contentType := some "application/json",
        body := Body.healthJson "success" "API is running" env.now } := by
  obtain ⟨p, c, files, bf, now2⟩ := env
  rcases h with h | h <;> cases p <;> cases c <;> first | rfl | simp_all

/-- Witness for C3's amended theorem at the development environment. -/
theorem health_route_ok_witness :
    handleRequest devEnv 0 { method := "GET", path := ["health"] } =
      { status := 200, contentType := some "application/json",
        body := Body.healthJson "success" "API is running" devEnv.now } :=
  health_route_ok devEnv 0 (Or.inl rfl)

/-- Whether some mounted handler ends the request before it falls through to
the synthesized 404: the disjunction of the guards of every terminating branch
of `handleRequest`, in mount order (the rate limiter, the cors middleware's
OPTIONS termination, the static mounts with their directory redirects, the
image fallback, the favicon route, the API sub-routers, the production block,
and the health route). -/
def someRouteHandles (env : Env) (k : Nat) (req : Request) : Bool :=
  (limiterApplies req.path && decide (limiterMax env ≤ k)) ||
  (req.method == "OPTIONS") ||
  (req.method == "GET" && uploadsStaticMatch env.files req.path) ||
  (req.method == "GET" && uploadsDirRedirect env.files req.path) ||
  uploadsFallbackServes env req.path ||
  (req.method == "GET" && publicStaticMatch env.files req.path) ||
  (req.method == "GET" && publicDirRedirect env.files req.path) ||
  (req.method == "GET" && req.path == ["favicon.ico"]) ||
  apiRouteMatch req.path ||
  (env.production && env.clientBuildFound && req.method == "GET" &&
      clientStaticMatch env.buildFiles req.path) ||
  (env.production && env.clientBuildFound && req.method == "GET" &&
      clientStaticDirRedirect env.buildFiles req.path) ||
  (env.production && env.clientBuildFound && req.method == "GET" &&
      !urlStartsWithApi req.path) ||
  (env.production && !env.clientBuildFound && req.method == "GET" &&
      req.path.isEmpty) ||
  (req.method == "GET" && req.path == ["health"])

/-- Claim C4: a request that no mounted route handles falls through to the
404 middleware, which synthesizes a `Route not found` error with status 404,
and the centralized error handler converts it into an HTTP 404 response with a
JSON error body. -/
theorem unmatched_route_404 (env : Env) (k : Nat) (req : Request)
    (h : someRouteHandles env k req = false) :
    handleRequest env k req =
      { status := 404, contentType := some "application/json",
        body := Body.errorJson (String.append "Route not found - " (urlOf req.path)) } := by
  simp only [someRouteHandles, Bool.or_eq_false_iff, and_assoc] at h
  obtain ⟨h1, h2, h3, h4, h5, h6, h7, h8, h9, h10, h11, h12, h13, h14⟩ := h
  unfold handleRequest
  rw [h1, h2, h3, h4, h5, h6, h7, h8, h9, h10, h11, h12, h13, h14]
  rfl

/-- Witness for C4 at a concrete unmounted route in the development
environment. -/
theorem unmatched_route_404_witness :
    handleRequest devEnv 0 { method := "GET", path := ["definitely-missing"] } =
      { status := 404, contentType := some "application/json",
        body := Body.errorJson
          (String.append "Route not found - " (urlOf ["definitely-missing"])) } :=
  unmatched_route_404 devEnv 0 { method := "GET", path := ["definitely-missing"] }
    (by decide)

/-- Claim C5, counterexample: a GET request under `/uploads/*` for a
non-existent image file with only one segment after `/uploads` (so it does not
fit the `/uploads/:type/:filename` route) gets a 404, not the fallback SVG,
even though the fallback SVG is on disk and the filename has an image
extension. -/
theorem single_segment_missing_image_404 :
    (handleRequest devEnv 0 { method := "GET", path := ["uploads", "missing.jpg"] }).status
        = 404 ∧
    (handleRequest devEnv 0 { method := "GET", path := ["uploads", "missing.jpg"] }).contentType
        ≠ some "image/svg+xml" ∧
    devEnv.files.contains ["uploads", "missing.jpg"] = false ∧
    isImageFile "missing.jpg" = true ∧
    devEnv.files.contains fallbackSvgFile = true := by decide

/-- Claim C5 (amended): for every GET request whose path has at least two
segments below `/uploads` — the route `/uploads/:type/:filename`, mounted with
`app.use`, prefix-matches such paths, binding `:type` and `:filename` to the
first two segments below `/uploads` — where the full path names neither a file
nor a directory on disk, the bound filename has an image extension, and the
fallback SVG exists on disk, the response is the fallback SVG served with
Content-Type `image/svg+xml`.  A path with only one segment below `/uploads`
does not match the route and receives no fallback. -/
theorem missing_image_gets_fallback_svg (env : Env) (k : Nat) (t f : String)
    (rest : UrlPath)
    (himg : isImageFile f = true)
    (hmiss : env.files.contains ("uploads" :: t :: f :: rest) = false)
    (hdir : dirIn env.files ("uploads" :: t :: f :: rest) = false)
    (hfb : env.files.contains fallbackSvgFile = true) :
    handleRequest env k { method := "GET", path := "uploads" :: t :: f :: rest } =
      { status := 200, contentType := some "image/svg+xml",
        body := Body.file fallbackSvgFile } := by
  have hm : ("uploads" :: t :: f :: rest) ∉ env.files := by
    simpa using hmiss
  have hserve : uploadsFallbackServes env ("uploads" :: t :: f :: rest) = true := by
    have e : uploadsFallbackServes env ("uploads" :: t :: f :: rest) =
        (isImageFile f && env.files.contains fallbackSvgFile) := rfl
    rw [e, himg, hfb]
    rfl
  have hlim : limiterApplies ("uploads" :: t :: f :: rest) = false := rfl
  simp [handleRequest, uploadsStaticMatch, uploadsDirRedirect, hlim, hm, hdir, hserve]

/-- Witness for C5's amended theorem: a missing image path with an unconsumed
suffix, `/uploads/a/b.jpg/c.png`, in the development environment (the route
binds `:filename` to `b.jpg`). -/
theorem missing_image_gets_fallback_svg_witness :
    handleRequest devEnv 0 { method := "GET", path := ["uploads", "a", "b.jpg", "c.png"] } =
      { status := 200, contentType := some "image/svg+xml",
        body := Body.file fallbackSvgFile } :=
  missing_image_gets_fallback_svg devEnv 0 "a" "b.jpg" ["c.png"]
    (by decide) (by decide) (by decide) (by decide)

/-- Claim C6: once a client has had `limiterMax` requests counted inside the
current window (100 in production, 1000 otherwise), any further request on a
path under `/api/` is answered with HTTP 429 and the configured throttling
message. -/
theorem api_rate_limit_throttles (env : Env) (k : Nat) (req : Request)
    (happly : limiterApplies req.path = true)
    (hexceed : limiterMax env ≤ k) :
    handleRequest env k req =
      { status := 429, contentType := none,
        body := Body.throttleMessage rateLimitMessage } ∧
    limiterMax env = (if env.production then 100 else 1000) := by
  refine ⟨?_, rfl⟩
  unfold handleRequest
  rw [happly]
  simp [hexceed]

/-- Witness for C6: the 101st request to `/api/products` in production is
throttled. -/
theorem api_rate_limit_throttles_witness :
    handleRequest prodBuildEnv 100 { method := "GET", path := ["api", "products"] } =
      { status := 429, contentType := none,
        body := Body.throttleMessage rateLimitMessage } ∧
    limiterMax prodBuildEnv = (if prodBuildEnv.production then 100 else 1000) :=
  api_rate_limit_throttles prodBuildEnv 100 { method := "GET", path := ["api", "products"] }
    (by decide) (by decide)

/-- Helper: a path whose URL does not start with `/api` cannot have `api` as
its first segment, so the rate limiter does not apply to it. -/
theorem limiterApplies_false_of_not_api (p : UrlPath)
    (h : urlStartsWithApi p = false) : limiterApplies p = false := by
  cases p with
  | nil => rfl
  | cons a as =>
    by_cases ha : a = "api"
    · subst ha
      have ht : urlStartsWithApi ("api" :: as) = true := rfl
      rw [ht] at h
      cases h
    · simp [limiterApplies, ha]

/-- Helper: a path matching an API sub-router mount has `api` as its first
segment, hence its URL starts with `/api`. -/
theorem urlStartsWithApi_of_apiRouteMatch (p : UrlPath)
    (h : apiRouteMatch p = true) : urlStartsWithApi p = true := by
  cases p with
  | nil => cases h
  | cons a as =>
    simp only [apiRouteMatch, List.head?_cons, Bool.and_eq_true, beq_iff_eq,
      Option.some.injEq] at h
    rw [h.1]
    rfl

/-- Claim C8, counterexample: in production with a client build found, a POST
request to a non-API path is not answered with index.html (the catch-all is
registered with `app.get` and matches only GET); it falls through to the 404
handler. -/
theorem production_post_not_index :
    (handleRequest prodBuildEnv 0 { method := "POST", path := ["checkout"] }).status = 404 ∧
    ∀ p, (handleRequest prodBuildEnv 0 { method := "POST", path := ["checkout"] }).body ≠
      Body.buildFile p := by
  refine ⟨by decide, fun p h => ?_⟩
  rw [show (handleRequest prodBuildEnv 0 { method := "POST", path := ["checkout"] }).body =
    Body.errorJson "Route not found - /checkout" from by decide] at h
  cases h

/-- Claim C8 (amended): when NODE_ENV is production, a client build directory
is found and the build's index.html exists, every GET request whose URL does
not start with `/api`, which no earlier-mounted handler serves or redirects
(the `/uploads` and `/public` statics and their directory redirects, the image
fallback, the favicon route) and which matches neither a static file nor a
directory of the client build, is answered with the build's index.html.
Non-GET requests are not covered by the catch-all (the cors middleware answers
every OPTIONS request with 204, and the counterexample's POST falls through to
the 404 handler). -/
theorem production_catchall_serves_index (env : Env) (k : Nat) (req : Request)
    (hprod : env.production = true) (hbuild : env.clientBuildFound = true)
    (_hidx : env.buildFiles.contains [("index.html" : String)] = true)
    (hget : req.method = "GET")
    (hapi : urlStartsWithApi req.path = false)
    (hup : uploadsStaticMatch env.files req.path = false)
    (hupdir : uploadsDirRedirect env.files req.path = false)
    (hfb : uploadsFallbackServes env req.path = false)
    (hpub : publicStaticMatch env.files req.path = false)
    (hpubdir : publicDirRedirect env.files req.path = false)
    (hfav : req.path ≠ ["favicon.ico"])
    (hstatic : clientStaticMatch env.buildFiles req.path = false)
    (hbdir : clientStaticDirRedirect env.buildFiles req.path = false) :
    handleRequest env k req =
      { status := 200, contentType := some "text/html",
        body := Body.buildFile [("index.html" : String)] } := by
  have hlim : limiterApplies req.path = false :=
    limiterApplies_false_of_not_api req.path hapi
  have hapim : apiRouteMatch req.path = false := by
    cases hx : apiRouteMatch req.path
    · rfl
    · rw [urlStartsWithApi_of_apiRouteMatch req.path hx] at hapi
      cases hapi
  simp [handleRequest, hget, hlim, hapim, hup, hupdir, hfb, hpub, hpubdir,
    hfav, hstatic, hbdir, hprod, hbuild, hapi]

/-- Witness for C8's amended theorem: GET `/about` in the production
environment with a client build. -/
theorem production_catchall_serves_index_witness :
    handleRequest prodBuildEnv 0 { method := "GET", path := ["about"] } =
      { status := 200, contentType := some "text/html",
        body := Body.buildFile [("index.html" : String)] } :=
  production_catchall_serves_index prodBuildEnv 0 { method := "GET", path := ["about"] }
    rfl rfl (by decide) rfl (by decide) (by decide) (by decide) (by decide)
    (by decide) (by decide) (by decide) (by decide) (by decide)

set_option maxHeartbeats 1000000 in
/-- Claim C9: the rate limiter is mounted only on `/api/`; a request whose
path does not begin with the `api` segment is never counted toward the limit
and is never answered with a throttling response, whatever its prior request
count. -/
theorem non_api_never_throttled (env : Env) (k : Nat) (req : Request)
    (h : req.path.head? ≠ some "api") :
    limiterApplies req.path = false ∧
    (handleRequest env k req).status ≠ 429 ∧
    ∀ msg, (handleRequest env k req).body ≠ Body.throttleMessage msg := by
  have hl : limiterApplies req.path = false := by
    simp only [limiterApplies, beq_eq_false_iff_ne, ne_eq]
    exact h
  have key : (handleRequest env k req).status ≠ 429 ∧
      ∀ msg, (handleRequest env k req).body ≠ Body.throttleMessage msg := by
    unfold handleRequest
    rw [hl]
    rw [if_neg (show ¬ ((false && decide (limiterMax env ≤ k)) = true) by simp)]
    by_cases h2 : (req.method == "OPTIONS") = true
    · rw [if_pos h2]
      exact ⟨by simp, by simp⟩
    · rw [if_neg h2]
      by_cases h3 : (req.method == "GET" && uploadsStaticMatch env.files req.path) = true
      · rw [if_pos h3]
        exact ⟨by simp, by simp⟩
      · rw [if_neg h3]
        by_cases h4 : (req.method == "GET" && uploadsDirRedirect env.files req.path) = true
        · rw [if_pos h4]
          exact ⟨by simp, by simp⟩
        · rw [if_neg h4]
          by_cases h5 : uploadsFallbackServes env req.path = true
          · rw [if_pos h5]
            exact ⟨by simp, by simp⟩
          · rw [if_neg h5]
            by_cases h6 : (req.method == "GET" && publicStaticMatch env.files req.path) = true
            · rw [if_pos h6]
              exact ⟨by simp, by simp⟩
            · rw [if_neg h6]
              by_cases h7 : (req.method == "GET" && publicDirRedirect env.files req.path) = true
              · rw [if_pos h7]
                exact ⟨by simp, by simp⟩
              · rw [if_neg h7]
                by_cases h8 : (req.method == "GET" && req.path == ["favicon.ico"]) = true
                · rw [if_pos h8]
                  by_cases hf : env.files.contains faviconFile = true
                  · rw [if_pos hf]
                    exact ⟨by simp, by simp⟩
                  · rw [if_neg hf]
                    exact ⟨by simp, by simp⟩
                · rw [if_neg h8]
                  by_cases h9 : apiRouteMatch req.path = true
                  · rw [if_pos h9]
                    exact ⟨by simp, by simp⟩
                  · rw [if_neg h9]
                    by_cases h10 : (env.production && env.clientBuildFound && req.method == "GET" && clientStaticMatch env.buildFiles req.path) = true
                    · rw [if_pos h10]
                      exact ⟨by simp, by simp⟩
                    · rw [if_neg h10]
                      by_cases h11 : (env.production && env.clientBuildFound && req.method == "GET" && clientStaticDirRedirect env.buildFiles req.path) = true
                      · rw [if_pos h11]
                        exact ⟨by simp, by simp⟩
                      · rw [if_neg h11]
                        by_cases h12 : (env.production && env.clientBuildFound && req.method == "GET" && !urlStartsWithApi req.path) = true
                        · rw [if_pos h12]
                          exact ⟨by simp, by simp⟩
                        · rw [if_neg h12]
                          by_cases h13 : (env.production && !env.clientBuildFound && req.method == "GET" && req.path.isEmpty) = true
                          · rw [if_pos h13]
                            exact ⟨by simp, by simp⟩
                          · rw [if_neg h13]
                            by_cases h14 : (req.method == "GET" && req.path == ["health"]) = true
                            · rw [if_pos h14]
                              exact ⟨by simp, by simp⟩
                            · rw [if_neg h14]
                              exact ⟨by simp [errorHandler], by simp [errorHandler]⟩
  exact ⟨hl, key.1, key.2⟩

/-- Witness for C9: `/health` with a huge prior request count is neither
counted nor throttled. -/
theorem non_api_never_throttled_witness :
    limiterApplies ({ method := "GET", path := ["health"] } : Request).path = false ∧
    (handleRequest devEnv 1000000 { method := "GET", path := ["health"] }).status ≠ 429 ∧
    ∀ msg, (handleRequest devEnv 1000000 { method := "GET", path := ["health"] }).body ≠
      Body.throttleMessage msg :=
  non_api_never_throttled devEnv 1000000 { method := "GET", path := ["health"] }
    (by decide)

/-- Claim C10: a GET request to `/favicon.ico` is served the favicon file when
it exists on disk and otherwise gets HTTP 204 with an empty body; it is never a
404. -/
theorem favicon_never_404 (env : Env) (k : Nat) :
    handleRequest env k { method := "GET", path := ["favicon.ico"] } =
      (if env.files.contains faviconFile then
        { status := 200, contentType := none, body := Body.file faviconFile }
       else { status := 204, contentType := none, body := Body.empty }) ∧
    (handleRequest env k { method := "GET", path := ["favicon.ico"] }).status ≠ 404 := by
  have e : handleRequest env k { method := "GET", path := ["favicon.ico"] } =
      (if env.files.contains faviconFile then
        { status := 200, contentType := none, body := Body.file faviconFile }
       else { status := 204, contentType := none, body := Body.empty }) := rfl
  refine ⟨e, ?_⟩
  rw [e]
  split <;> simp
